import Mathlib

/-!
Shallow embedding of `paper.go` (package blog): a Dropbox Paper API client
with one metadata helper (`rpc`), one content helper (`content`), and three
public operations (`ListDocs`, `DownloadDoc`, `GetDocFolderInfo`).

The HTTP transport (`net/http`) is modelled as a function from the built
request to either a transport failure or a response supplied by the
environment (e.g. a mock server).  JSON texts on the wire are modelled at
the value level by the inductive `Json`; a body or header that is not
well-formed JSON is modelled as `Option.none`.  JSON numbers are modelled
as integers, which covers every numeric field of the source (`int32`,
`int64`).  Decoding follows the documented semantics of Go `encoding/json`:
object keys are matched to struct fields by their JSON tag (exact match,
else ASCII-case-insensitive), unknown keys are ignored, a mis-typed value
records an error but decoding continues, so a failed decode can leave the
destination partially populated.
-/

/-- Byte sequences (`[]byte`); bytes as naturals. -/
abbrev Bytes := List Nat

/-- ASCII/codepoint bytes of a string literal, for binary response bodies. -/
def strBytes (s : String) : Bytes := s.toList.map Char.toNat

/-- JSON values (wire data at the value level). -/
inductive Json where
  | null : Json
  | bool (b : Bool) : Json
  | num (n : Int) : Json
  | str (s : String) : Json
  | arr (xs : List Json) : Json
  | obj (kvs : List (String × Json)) : Json

/-- String escaping for serialization: quote and backslash (the characters
relevant to the values this client serializes). -/
def Json.escape (s : String) : String :=
  String.join (s.toList.map (fun c =>
    if c = '"' then "\\\"" else if c = '\\' then "\\\\" else c.toString))

mutual

/-- Serialization of a JSON value to text (`json.Marshal` output shape). -/
def Json.render : Json → String
  | .null => "null"
  | .bool true => "true"
  | .bool false => "false"
  | .num n => toString n
  | .str s => "\"" ++ Json.escape s ++ "\""
  | .arr xs => "[" ++ Json.renderList xs ++ "]"
  | .obj kvs => "\x7b" ++ Json.renderObj kvs ++ "\x7d"

/-- Comma-separated rendering of array elements. -/
def Json.renderList : List Json → String
  | [] => ""
  | [x] => Json.render x
  | x :: y :: xs => Json.render x ++ "," ++ Json.renderList (y :: xs)

/-- Comma-separated rendering of object members. -/
def Json.renderObj : List (String × Json) → String
  | [] => ""
  | [(k, v)] => "\"" ++ Json.escape k ++ "\":" ++ Json.render v
  | (k, v) :: m :: kvs =>
      "\"" ++ Json.escape k ++ "\":" ++ Json.render v ++ "," ++ Json.renderObj (m :: kvs)

end

/-- ASCII case folding of a codepoint (upper-case letters map to their
lower-case counterparts), as used by `encoding/json` key matching; all the
JSON keys of this client are ASCII. -/
def foldCode (n : Nat) : Nat := if 65 ≤ n ∧ n ≤ 90 then n + 32 else n

/-- Go `encoding/json` field matching: a JSON object key selects a struct
field by exact name match or, failing that, ASCII-case-insensitive match. -/
def jsonKeyMatch (key name : String) : Bool :=
  key = name ||
    key.toList.map (fun c => foldCode c.toNat) = name.toList.map (fun c => foldCode c.toNat)

/-- Decode a JSON value into a `string` destination.  `null` leaves the
destination unchanged without error; a non-string value is a type error
that leaves the destination unchanged.  Returns (value, errored). -/
def decodeGoString (j : Json) (dst : String) : String × Bool :=
  match j with
  | .str s => (s, false)
  | .null => (dst, false)
  | _ => (dst, true)

/-- Decode a JSON value into an integer destination (`int32`/`int64`). -/
def decodeGoInt (j : Json) (dst : Int) : Int × Bool :=
  match j with
  | .num n => (n, false)
  | .null => (dst, false)
  | _ => (dst, true)

/-- Decode a JSON value into a `bool` destination. -/
def decodeGoBool (j : Json) (dst : Bool) : Bool × Bool :=
  match j with
  | .bool b => (b, false)
  | .null => (dst, false)
  | _ => (dst, true)

/-- Decode a JSON array element into a fresh `string` slice element:
a mis-typed element records an error and leaves the zero value. -/
def decodeGoStringElems : List Json → List String × Bool
  | [] => ([], false)
  | j :: js =>
      let (s, e₁) := decodeGoString j ""
      let (rest, e₂) := decodeGoStringElems js
      (s :: rest, e₁ || e₂)

/-- Decode a JSON value into a `[]string` destination.  `null` sets the
slice to nil; a non-array value is a type error. -/
def decodeGoStringList (j : Json) (dst : List String) : List String × Bool :=
  match j with
  | .arr xs => decodeGoStringElems xs
  | .null => ([], false)
  | _ => (dst, true)

/-- Association-list update with Go map store semantics (last write wins). -/
def assocUpdate (k v : String) : List (String × String) → List (String × String)
  | [] => [(k, v)]
  | (k', v') :: rest =>
      if k' = k then (k, v) :: rest else (k', v') :: assocUpdate k v rest

/-- Decode JSON object members into a `map[string]string`: each member's
value is decoded into a fresh string element (type errors store the zero
value and record the error) and stored under its key. -/
def decodeGoStringMapMembers : List (String × Json) → List (String × String) →
    List (String × String) × Bool
  | [], m => (m, false)
  | (k, v) :: rest, m =>
      let (s, e₁) := decodeGoString v ""
      let (m', e₂) := decodeGoStringMapMembers rest (assocUpdate k s m)
      (m', e₁ || e₂)

/-- Decode a JSON value into a `map[string]string` destination.  `null`
sets the map to nil; a non-object value is a type error. -/
def decodeGoStringMap (j : Json) (dst : List (String × String)) :
    List (String × String) × Bool :=
  match j with
  | .obj kvs => decodeGoStringMapMembers kvs dst
  | .null => ([], false)
  | _ => (dst, true)

/-! ## Data types of `paper.go` (names kept from the source) -/

/-- `type APIError struct { Summary string; Metadata map[string]string }`
with tags `error_summary` / `error`. -/
structure APIError where
  Summary : String
  Metadata : List (String × String)
  deriving DecidableEq

/-- Zero value of `APIError` (`var apierr APIError`). -/
def APIError.zero : APIError := { Summary := "", Metadata := [] }

/-- `type APIClient struct { Token string; HTTP http.Client }`; the
transport handle is modelled at each call site as a function argument. -/
structure APIClient where
  Token : String
  deriving DecidableEq

/-- `func NewClient(token string) *APIClient`. -/
def NewClient (token : String) : APIClient := { Token := token }

/-- `type ListPaperDocsArgs struct` with omitempty tags `filter_by`,
`sort_by`, `sort_order`, `limit`.  The three named string types
(`ListPaperDocsFilterBy`, `ListPaperDocsSortBy`, `ListPaperDocsSortOrder`)
are Go string types, modelled as `String`; `Limit` is an `int32`. -/
structure ListPaperDocsArgs where
  FilterBy : String
  SortBy : String
  SortOrder : String
  Limit : Int
  deriving DecidableEq

/-- Zero value of `ListPaperDocsArgs`. -/
def ListPaperDocsArgs.zero : ListPaperDocsArgs :=
  { FilterBy := "", SortBy := "", SortOrder := "", Limit := 0 }

/-- `type Cursor struct` with tags `value`, `expiration`. -/
structure Cursor where
  Value : String
  Expiration : String
  deriving DecidableEq

/-- Zero value of `Cursor`. -/
def Cursor.zero : Cursor := { Value := "", Expiration := "" }

/-- `type ListPaperDocsResponse struct`.  `DocIDs` has tag `doc_ids` and
`Cursor` has tag `cursor`; the tag on `HasMore` is malformed in the source
(`json"has_more"`, missing colon), so Go ignores it and the JSON key for
that field is the field name `HasMore`. -/
structure ListPaperDocsResponse where
  DocIDs : List String
  Cursor : Cursor
  HasMore : Bool
  deriving DecidableEq

/-- Zero value of `ListPaperDocsResponse` (`var out ListPaperDocsResponse`). -/
def ListPaperDocsResponse.zero : ListPaperDocsResponse :=
  { DocIDs := [], Cursor := Cursor.zero, HasMore := false }

/-- `type PaperDocExport struct` with omitempty tags `doc_id`,
`export_format` (`ExportFormat` is a Go string type). -/
structure PaperDocExport where
  DocID : String
  Format : String
  deriving DecidableEq

/-- `type PaperDocExportResult struct` with tags `owner`, `title`,
`revision` (int64), `mime_type`. -/
structure PaperDocExportResult where
  Owner : String
  Title : String
  Revision : Int
  MIME : String
  deriving DecidableEq

/-- Zero value of `PaperDocExportResult` (`var out PaperDocExportResult`). -/
def PaperDocExportResult.zero : PaperDocExportResult :=
  { Owner := "", Title := "", Revision := 0, MIME := "" }

/-- `type RefPaperDoc struct { DocID string }` with tag `doc_id` (no
omitempty). -/
structure RefPaperDoc where
  DocID : String
  deriving DecidableEq

/-- `type Folder struct` with tags `id`, `name`. -/
structure Folder where
  ID : String
  Name : String
  deriving DecidableEq

/-- `type FoldersContainingPaperDoc struct`: both fields are untagged, so
their JSON keys are the field names `FolderSharingPolicyType` and
`Folders` (`FolderSharingPolicyType` is a Go string type). -/
structure FoldersContainingPaperDoc where
  FolderSharingPolicyType : String
  Folders : List Folder
  deriving DecidableEq

/-- Zero value of `FoldersContainingPaperDoc`. -/
def FoldersContainingPaperDoc.zero : FoldersContainingPaperDoc :=
  { FolderSharingPolicyType := "", Folders := [] }

/-! ## `json.Marshal` of the request types

`json.Marshal` on these struct types cannot fail (all fields are strings
and integers), so the error branch after `json.Marshal(in)` in `rpc` and
`content` is unreachable for the arguments the public operations pass;
marshalling is modelled as a total function to a JSON value.  Fields are
emitted in declaration order; `omitempty` drops a field whose value is the
zero value of its type. -/

/-- `json.Marshal` of `ListPaperDocsArgs` (every field `omitempty`). -/
def marshalListPaperDocsArgs (a : ListPaperDocsArgs) : Json :=
  Json.obj
    ((if a.FilterBy = "" then [] else [("filter_by", Json.str a.FilterBy)]) ++
     (if a.SortBy = "" then [] else [("sort_by", Json.str a.SortBy)]) ++
     (if a.SortOrder = "" then [] else [("sort_order", Json.str a.SortOrder)]) ++
     (if a.Limit = 0 then [] else [("limit", Json.num a.Limit)]))

/-- `json.Marshal` of `PaperDocExport` (both fields `omitempty`). -/
def marshalPaperDocExport (p : PaperDocExport) : Json :=
  Json.obj
    ((if p.DocID = "" then [] else [("doc_id", Json.str p.DocID)]) ++
     (if p.Format = "" then [] else [("export_format", Json.str p.Format)]))

/-- `json.Marshal` of `RefPaperDoc`. -/
def marshalRefPaperDoc (r : RefPaperDoc) : Json :=
  Json.obj [("doc_id", Json.str r.DocID)]

/-! ## `encoding/json` decoding into the response types

Each decoder takes the JSON value and the current destination and returns
the updated destination together with an error flag, reflecting that
`json.Unmarshal` / `Decode` mutate the destination field by field in key
order and, on a mis-typed value, record the error and continue, so the
destination can be left partially populated when an error is reported.
A JSON `null` leaves a struct destination unchanged; a non-object value is
a type error. -/

/-- Decode the members of a JSON object into a `Cursor`. -/
def decodeCursorMembers : List (String × Json) → Cursor → Bool → Cursor × Bool
  | [], dst, e => (dst, e)
  | (k, v) :: rest, dst, e =>
      if jsonKeyMatch k "value" then
        let (x, e') := decodeGoString v dst.Value
        decodeCursorMembers rest { dst with Value := x } (e || e')
      else if jsonKeyMatch k "expiration" then
        let (x, e') := decodeGoString v dst.Expiration
        decodeCursorMembers rest { dst with Expiration := x } (e || e')
      else
        decodeCursorMembers rest dst e

/-- Decode a JSON value into a `Cursor` destination. -/
def decodeCursor (j : Json) (dst : Cursor) : Cursor × Bool :=
  match j with
  | .obj kvs => decodeCursorMembers kvs dst false
  | .null => (dst, false)
  | _ => (dst, true)

/-- Decode the members of a JSON object into a `ListPaperDocsResponse`.
The JSON key for `HasMore` is the field name `HasMore` because the struct
tag `json"has_more"` in the source is malformed (missing colon) and is
ignored by Go's tag parser. -/
def decodeListPaperDocsResponseMembers :
    List (String × Json) → ListPaperDocsResponse → Bool → ListPaperDocsResponse × Bool
  | [], dst, e => (dst, e)
  | (k, v) :: rest, dst, e =>
      if jsonKeyMatch k "doc_ids" then
        let (x, e') := decodeGoStringList v dst.DocIDs
        decodeListPaperDocsResponseMembers rest { dst with DocIDs := x } (e || e')
      else if jsonKeyMatch k "cursor" then
        let (x, e') := decodeCursor v dst.Cursor
        decodeListPaperDocsResponseMembers rest { dst with Cursor := x } (e || e')
      else if jsonKeyMatch k "HasMore" then
        let (x, e') := decodeGoBool v dst.HasMore
        decodeListPaperDocsResponseMembers rest { dst with HasMore := x } (e || e')
      else
        decodeListPaperDocsResponseMembers rest dst e

/-- Decode a JSON value into a `ListPaperDocsResponse` destination. -/
def decodeListPaperDocsResponse (j : Json) (dst : ListPaperDocsResponse) :
    ListPaperDocsResponse × Bool :=
  match j with
  | .obj kvs => decodeListPaperDocsResponseMembers kvs dst false
  | .null => (dst, false)
  | _ => (dst, true)

/-- Decode the members of a JSON object into a `PaperDocExportResult`. -/
def decodePaperDocExportResultMembers :
    List (String × Json) → PaperDocExportResult → Bool → PaperDocExportResult × Bool
  | [], dst, e => (dst, e)
  | (k, v) :: rest, dst, e =>
      if jsonKeyMatch k "owner" then
        let (x, e') := decodeGoString v dst.Owner
        decodePaperDocExportResultMembers rest { dst with Owner := x } (e || e')
      else if jsonKeyMatch k "title" then
        let (x, e') := decodeGoString v dst.Title
        decodePaperDocExportResultMembers rest { dst with Title := x } (e || e')
      else if jsonKeyMatch k "revision" then
        let (x, e') := decodeGoInt v dst.Revision
        decodePaperDocExportResultMembers rest { dst with Revision := x } (e || e')
      else if jsonKeyMatch k "mime_type" then
        let (x, e') := decodeGoString v dst.MIME
        decodePaperDocExportResultMembers rest { dst with MIME := x } (e || e')
      else
        decodePaperDocExportResultMembers rest dst e

/-- Decode a JSON value into a `PaperDocExportResult` destination. -/
def decodePaperDocExportResult (j : Json) (dst : PaperDocExportResult) :
    PaperDocExportResult × Bool :=
  match j with
  | .obj kvs => decodePaperDocExportResultMembers kvs dst false
  | .null => (dst, false)
  | _ => (dst, true)

/-- Decode the members of a JSON object into an `APIError`. -/
def decodeAPIErrorMembers : List (String × Json) → APIError → Bool → APIError × Bool
  | [], dst, e => (dst, e)
  | (k, v) :: rest, dst, e =>
      if jsonKeyMatch k "error_summary" then
        let (x, e') := decodeGoString v dst.Summary
        decodeAPIErrorMembers rest { dst with Summary := x } (e || e')
      else if jsonKeyMatch k "error" then
        let (x, e') := decodeGoStringMap v dst.Metadata
        decodeAPIErrorMembers rest { dst with Metadata := x } (e || e')
      else
        decodeAPIErrorMembers rest dst e

/-- Decode a JSON value into an `APIError` destination. -/
def decodeAPIError (j : Json) (dst : APIError) : APIError × Bool :=
  match j with
  | .obj kvs => decodeAPIErrorMembers kvs dst false
  | .null => (dst, false)
  | _ => (dst, true)

/-- Decode a JSON value into a `Folder` destination. -/
def decodeFolderMembers : List (String × Json) → Folder → Bool → Folder × Bool
  | [], dst, e => (dst, e)
  | (k, v) :: rest, dst, e =>
      if jsonKeyMatch k "id" then
        let (x, e') := decodeGoString v dst.ID
        decodeFolderMembers rest { dst with ID := x } (e || e')
      else if jsonKeyMatch k "name" then
        let (x, e') := decodeGoString v dst.Name
        decodeFolderMembers rest { dst with Name := x } (e || e')
      else
        decodeFolderMembers rest dst e

/-- Decode a JSON array into a fresh `[]Folder` slice. -/
def decodeFolderElems : List Json → List Folder × Bool
  | [] => ([], false)
  | j :: js =>
      let (f, e₁) :=
        match j with
        | .obj kvs => decodeFolderMembers kvs { ID := "", Name := "" } false
        | .null => ({ ID := "", Name := "" }, false)
        | _ => ({ ID := "", Name := "" }, true)
      let (rest, e₂) := decodeFolderElems js
      (f :: rest, e₁ || e₂)

/-- Decode a JSON value into a `[]Folder` destination. -/
def decodeFolderList (j : Json) (dst : List Folder) : List Folder × Bool :=
  match j with
  | .arr xs => decodeFolderElems xs
  | .null => ([], false)
  | _ => (dst, true)

/-- Decode the members of a JSON object into a `FoldersContainingPaperDoc`
(both fields keyed by their Go field names, as they carry no tags). -/
def decodeFoldersContainingPaperDocMembers :
    List (String × Json) → FoldersContainingPaperDoc → Bool →
    FoldersContainingPaperDoc × Bool
  | [], dst, e => (dst, e)
  | (k, v) :: rest, dst, e =>
      if jsonKeyMatch k "FolderSharingPolicyType" then
        let (x, e') := decodeGoString v dst.FolderSharingPolicyType
        decodeFoldersContainingPaperDocMembers rest
          { dst with FolderSharingPolicyType := x } (e || e')
      else if jsonKeyMatch k "Folders" then
        let (x, e') := decodeFolderList v dst.Folders
        decodeFoldersContainingPaperDocMembers rest { dst with Folders := x } (e || e')
      else
        decodeFoldersContainingPaperDocMembers rest dst e

/-- Decode a JSON value into a `FoldersContainingPaperDoc` destination. -/
def decodeFoldersContainingPaperDoc (j : Json) (dst : FoldersContainingPaperDoc) :
    FoldersContainingPaperDoc × Bool :=
  match j with
  | .obj kvs => decodeFoldersContainingPaperDocMembers kvs dst false
  | .null => (dst, false)
  | _ => (dst, true)

/-- Decode a JSON value into a `ListPaperDocsArgs` destination (used for
the round-trip property; tags `filter_by`, `sort_by`, `sort_order`,
`limit` are all well formed on this struct). -/
def decodeListPaperDocsArgsMembers :
    List (String × Json) → ListPaperDocsArgs → Bool → ListPaperDocsArgs × Bool
  | [], dst, e => (dst, e)
  | (k, v) :: rest, dst, e =>
      if jsonKeyMatch k "filter_by" then
        let (x, e') := decodeGoString v dst.FilterBy
        decodeListPaperDocsArgsMembers rest { dst with FilterBy := x } (e || e')
      else if jsonKeyMatch k "sort_by" then
        let (x, e') := decodeGoString v dst.SortBy
        decodeListPaperDocsArgsMembers rest { dst with SortBy := x } (e || e')
      else if jsonKeyMatch k "sort_order" then
        let (x, e') := decodeGoString v dst.SortOrder
        decodeListPaperDocsArgsMembers rest { dst with SortOrder := x } (e || e')
      else if jsonKeyMatch k "limit" then
        let (x, e') := decodeGoInt v dst.Limit
        decodeListPaperDocsArgsMembers rest { dst with Limit := x } (e || e')
      else
        decodeListPaperDocsArgsMembers rest dst e

/-- Decode a JSON value into a `ListPaperDocsArgs` destination. -/
def decodeListPaperDocsArgs (j : Json) (dst : ListPaperDocsArgs) :
    ListPaperDocsArgs × Bool :=
  match j with
  | .obj kvs => decodeListPaperDocsArgsMembers kvs dst false
  | .null => (dst, false)
  | _ => (dst, true)

/-! ## HTTP model -/

/-- An outbound HTTP request as built by `http.NewRequest` plus
`Header.Set` calls: method, URL, headers (the names used here are already
in canonical form), and the request body as the serialized bytes handed to
`bytes.NewReader` (modelled as the rendered JSON text). -/
structure HttpRequest where
  method : String
  url : String
  headers : List (String × String)
  body : String

/-- `req.Header.Get(name)`-style lookup on an outbound request. -/
def HttpRequest.getHeader (r : HttpRequest) (name : String) : Option String :=
  (r.headers.find? (fun p => p.1 = name)).map (fun p => p.2)

/-- A response to a metadata (`rpc`) call: status code and the response
body, which `rpc` consumes only as JSON; `none` models a body that is not
well-formed JSON. -/
structure RpcResponse where
  status : Nat
  bodyJson : Option Json

/-- A response to a `content` call: status code, the `Dropbox-API-Result`
header (`headerPresent = false` models `resp.Header.Get` returning `""`;
`apiResult = none` models a present header whose text is not well-formed
JSON), the raw body bytes (read on the 200 path), and the body parsed as
JSON (consumed only on the non-200 path). -/
structure ContentResponse where
  status : Nat
  headerPresent : Bool
  apiResult : Option Json
  body : Bytes
  bodyJson : Option Json

/-- The typed failures of a call, following the spec's taxonomy:
`transport` for `c.HTTP.Do` errors (including cancellation), `encoding`
for JSON decode failures returned by the helper, `remote e` for a non-200
response whose body decoded into the `APIError` value `e` (which `rpc` and
`content` return as the error). -/
inductive CallError where
  | transport : CallError
  | encoding : CallError
  | remote (e : APIError) : CallError
  deriving DecidableEq

/-- The request built by `rpc` (paper.go lines 44-46): POST, bearer token,
`Content-Type: application/json`, body = serialized JSON. -/
def rpcRequest (token url : String) (inJson : Json) : HttpRequest :=
  { method := "POST"
    url := url
    headers := [("Authorization", "Bearer " ++ token),
                ("Content-Type", "application/json")]
    body := Json.render inJson }

/-- The request built by `content` (paper.go lines 68-70): POST, bearer
token, `Dropbox-API-Arg` = the serialized JSON, and the same serialized
JSON as the request body (`bytes.NewReader(body)`); no `Content-Type`. -/
def contentRequest (token url : String) (inJson : Json) : HttpRequest :=
  { method := "POST"
    url := url
    headers := [("Authorization", "Bearer " ++ token),
                ("Dropbox-API-Arg", Json.render inJson)]
    body := Json.render inJson }

/-- The transport (`c.HTTP.Do` under the caller's context): the
environment maps the outbound request to a response or to a failure
(connection error, timeout, cancelled context). -/
abbrev Transport (ρ : Type) := HttpRequest → Except Unit ρ

/-- Response processing of `rpc` (paper.go lines 52-59): on non-200 decode
the body as `APIError` and return it as the error (or the decode error);
on 200 decode the body into the destination, which is returned as mutated
even when decoding reports an error. -/
def rpcProcess {α : Type} (resp : RpcResponse)
    (dec : Json → α → α × Bool) (out : α) : α × Option CallError :=
  if resp.status ≠ 200 then
    match resp.bodyJson with
    | none => (out, some CallError.encoding)
    | some j =>
        let (apierr, bad) := decodeAPIError j APIError.zero
        if bad then (out, some CallError.encoding)
        else (out, some (CallError.remote apierr))
  else
    match resp.bodyJson with
    | none => (out, some CallError.encoding)
    | some j =>
        let (out', bad) := dec j out
        (out', if bad then some CallError.encoding else none)

/-- `func (c *APIClient) rpc(ctx, url, in, out) error`, with the mutated
destination made explicit in the return value.  `json.Marshal(in)` cannot
fail for the argument types of the public operations, so `inJson` is the
marshalled input. -/
def APIClient.rpc {α : Type} (c : APIClient) (transport : Transport RpcResponse)
    (url : String) (inJson : Json) (dec : Json → α → α × Bool) (out : α) :
    α × Option CallError :=
  match transport (rpcRequest c.Token url inJson) with
  | .error _ => (out, some CallError.transport)
  | .ok resp => rpcProcess resp dec out

/-- Response processing of `content` (paper.go lines 78-92): on non-200,
as in `rpc`; on 200, if the `Dropbox-API-Result` header is non-empty it is
decoded into the destination metadata, and a decode error returns
immediately with `contents` still nil — the body is read (and returned as
the content bytes) only after that step succeeds or is skipped. -/
def contentProcess {α : Type} (resp : ContentResponse)
    (dec : Json → α → α × Bool) (out : α) : α × Bytes × Option CallError :=
  if resp.status ≠ 200 then
    match resp.bodyJson with
    | none => (out, [], some CallError.encoding)
    | some j =>
        let (apierr, bad) := decodeAPIError j APIError.zero
        if bad then (out, [], some CallError.encoding)
        else (out, [], some (CallError.remote apierr))
  else if resp.headerPresent then
    match resp.apiResult with
    | none => (out, [], some CallError.encoding)
    | some j =>
        let (out', bad) := dec j out
        if bad then (out', [], some CallError.encoding)
        else (out', resp.body, none)
  else
    (out, resp.body, none)

/-- `func (c *APIClient) content(ctx, url, in, out) ([]byte, error)`, with
the mutated destination made explicit in the return value. -/
def APIClient.content {α : Type} (c : APIClient) (transport : Transport ContentResponse)
    (url : String) (inJson : Json) (dec : Json → α → α × Bool) (out : α) :
    α × Bytes × Option CallError :=
  match transport (contentRequest c.Token url inJson) with
  | .error _ => (out, [], some CallError.transport)
  | .ok resp => contentProcess resp dec out

/-! ## Public operations -/

/-- Endpoint bound by `ListDocs`. -/
def listDocsURL : String := "https://api.dropboxapi.com/2/paper/docs/list"

/-- Endpoint bound by `DownloadDoc`. -/
def downloadDocURL : String := "https://api.dropboxapi.com/2/paper/docs/download"

/-- Endpoint bound by `GetDocFolderInfo`. -/
def getDocFolderInfoURL : String := "https://api.dropboxapi.com/2/paper/docs/get_folder_info"

/-- The outbound request of `ListDocs` for a given client and argument. -/
def listDocsRequest (c : APIClient) (inA : ListPaperDocsArgs) : HttpRequest :=
  rpcRequest c.Token listDocsURL (marshalListPaperDocsArgs inA)

/-- The outbound request of `DownloadDoc` for a given client and argument. -/
def downloadDocRequest (c : APIClient) (inA : PaperDocExport) : HttpRequest :=
  contentRequest c.Token downloadDocURL (marshalPaperDocExport inA)

/-- The outbound request of `GetDocFolderInfo` for a given client and
argument. -/
def getDocFolderInfoRequest (c : APIClient) (inA : RefPaperDoc) : HttpRequest :=
  rpcRequest c.Token getDocFolderInfoURL (marshalRefPaperDoc inA)

/-- `func (c *APIClient) ListDocs`: `var out ListPaperDocsResponse;
return &out, c.rpc(...)` — the destination is returned to the caller in
every case, errors included. -/
def APIClient.ListDocs (c : APIClient) (transport : Transport RpcResponse)
    (inA : ListPaperDocsArgs) : ListPaperDocsResponse × Option CallError :=
  c.rpc transport listDocsURL (marshalListPaperDocsArgs inA)
    decodeListPaperDocsResponse ListPaperDocsResponse.zero

/-- `func (c *APIClient) DownloadDoc`: `var out PaperDocExportResult;
blob, err := c.content(...); return &out, blob, err`. -/
def APIClient.DownloadDoc (c : APIClient) (transport : Transport ContentResponse)
    (inA : PaperDocExport) : PaperDocExportResult × Bytes × Option CallError :=
  c.content transport downloadDocURL (marshalPaperDocExport inA)
    decodePaperDocExportResult PaperDocExportResult.zero

/-- `func (c *APIClient) GetDocFolderInfo`: `var out
FoldersContainingPaperDoc; return &out, c.rpc(...)`. -/
def APIClient.GetDocFolderInfo (c : APIClient) (transport : Transport RpcResponse)
    (inA : RefPaperDoc) : FoldersContainingPaperDoc × Option CallError :=
  c.rpc transport getDocFolderInfoURL (marshalRefPaperDoc inA)
    decodeFoldersContainingPaperDoc FoldersContainingPaperDoc.zero

/-! ## Theorems for the claims -/

/-- C1 (counterexample): the claim says the request body of a content call
is empty/unused and the serialized JSON travels only in the
`Dropbox-API-Arg` header; but the request `content` builds for a concrete
download argument has the serialized JSON as its (non-empty) body. -/
theorem downloadDocRequest_body_nonempty :
    (downloadDocRequest (NewClient "t") { DocID := "d", Format := "markdown" }).body =
      Json.render (marshalPaperDocExport { DocID := "d", Format := "markdown" }) ∧
    (downloadDocRequest (NewClient "t") { DocID := "d", Format := "markdown" }).body ≠ "" := by
  constructor
  · rfl
  · decide

/-- C1 (amended): for every content call, the serialized JSON of the
request value is carried in the `Dropbox-API-Arg` header and also as the
request body, and no `Content-Type` header is set. -/
theorem downloadDocRequest_headers :
    ∀ (token : String) (inA : PaperDocExport),
      (downloadDocRequest (NewClient token) inA).getHeader "Dropbox-API-Arg" =
        some (Json.render (marshalPaperDocExport inA)) ∧
      (downloadDocRequest (NewClient token) inA).getHeader "Content-Type" = none ∧
      (downloadDocRequest (NewClient token) inA).body =
        Json.render (marshalPaperDocExport inA) := by
  intro token inA
  refine ⟨rfl, ?_, rfl⟩
  simp [downloadDocRequest, contentRequest, HttpRequest.getHeader, List.find?]

/-- C4 (code evaluated at the failing input): a 200 list-documents
response whose body has keys `doc_ids`, `cursor` and `has_more` (with
`"has_more": true`) decodes without error, but the returned `HasMore`
flag is `false`: the malformed struct tag `json"has_more"` is ignored by
Go, so the JSON key `has_more` matches no field. -/
theorem listDocs_has_more_key_dropped :
    (NewClient "t").ListDocs
      (fun _ => Except.ok
        { status := 200
          bodyJson := some (Json.obj
            [("doc_ids", Json.arr [Json.str "a"]),
             ("cursor", Json.obj [("value", Json.str "v"), ("expiration", Json.str "e")]),
             ("has_more", Json.bool true)]) })
      ListPaperDocsArgs.zero =
    ({ DocIDs := ["a"], Cursor := { Value := "v", Expiration := "e" }, HasMore := false },
      none) := by
  decide

/-- C5: every outbound request of the three public operations carries the
header `Authorization: Bearer <token>`, where `<token>` is the token the
client was constructed with. -/
theorem operations_bearer_token_header :
    ∀ (token : String) (a : ListPaperDocsArgs) (p : PaperDocExport) (r : RefPaperDoc),
      (listDocsRequest (NewClient token) a).getHeader "Authorization" =
        some ("Bearer " ++ token) ∧
      (downloadDocRequest (NewClient token) p).getHeader "Authorization" =
        some ("Bearer " ++ token) ∧
      (getDocFolderInfoRequest (NewClient token) r).getHeader "Authorization" =
        some ("Bearer " ++ token) := by
  intro token a p r
  exact ⟨rfl, rfl, rfl⟩

/-- C7: a download whose response is 200 with body `b"hello world"` and a
`Dropbox-API-Result` header carrying owner/title/revision/mime_type
metadata succeeds, returning that metadata (revision 3) and exactly the
body bytes as content. -/
theorem downloadDoc_success_with_metadata :
    (NewClient "t").DownloadDoc
      (fun _ => Except.ok
        { status := 200
          headerPresent := true
          apiResult := some (Json.obj
            [("owner", Json.str "u1"), ("title", Json.str "Doc"),
             ("revision", Json.num 3), ("mime_type", Json.str "text/markdown")])
          body := strBytes "hello world"
          bodyJson := none })
      { DocID := "d", Format := "markdown" } =
    ({ Owner := "u1", Title := "Doc", Revision := 3, MIME := "text/markdown" },
      strBytes "hello world", none) := by
  decide

/-- C8: a download whose response is 200 with body `b"data"` and no
`Dropbox-API-Result` header succeeds with zero-valued metadata and the
full body bytes as content. -/
theorem downloadDoc_success_without_header :
    (NewClient "t").DownloadDoc
      (fun _ => Except.ok
        { status := 200
          headerPresent := false
          apiResult := none
          body := strBytes "data"
          bodyJson := none })
      { DocID := "d", Format := "markdown" } =
    (PaperDocExportResult.zero, strBytes "data", none) := by
  decide

/-- On a non-200 response, `rpc`'s processing leaves the destination
untouched and reports some failure. -/
theorem rpcProcess_non200 {α : Type} (resp : RpcResponse)
    (dec : Json → α → α × Bool) (out : α) (h : resp.status ≠ 200) :
    (rpcProcess resp dec out).1 = out ∧ (rpcProcess resp dec out).2.isSome = true := by
  unfold rpcProcess
  rw [if_pos h]
  cases hb : resp.bodyJson with
  | none => exact ⟨rfl, rfl⟩
  | some j =>
    rcases hd : decodeAPIError j APIError.zero with ⟨e, b⟩
    cases b <;> simp [hd]

/-- On a non-200 response whose body decodes as an `APIError` without
error, `rpc`'s processing fails with exactly that `APIError`. -/
theorem rpcProcess_non200_remote {α : Type} (resp : RpcResponse)
    (dec : Json → α → α × Bool) (out : α) (j : Json) (e : APIError)
    (h : resp.status ≠ 200) (hb : resp.bodyJson = some j)
    (hd : decodeAPIError j APIError.zero = (e, false)) :
    rpcProcess resp dec out = (out, some (CallError.remote e)) := by
  unfold rpcProcess
  rw [if_pos h, hb]
  simp [hd]

/-- On a non-200 response whose body decodes as an `APIError` without
error, `content`'s processing fails with exactly that `APIError` and
returns nil content. -/
theorem contentProcess_non200_remote {α : Type} (resp : ContentResponse)
    (dec : Json → α → α × Bool) (out : α) (j : Json) (e : APIError)
    (h : resp.status ≠ 200) (hb : resp.bodyJson = some j)
    (hd : decodeAPIError j APIError.zero = (e, false)) :
    contentProcess resp dec out = (out, [], some (CallError.remote e)) := by
  unfold contentProcess
  rw [if_pos h, hb]
  simp [hd]

/-- C3 (counterexample): the claim says a failed metadata call leaves the
destination at its zero value; but a 200 list-documents response whose
body sets `doc_ids` and then fails to decode `cursor` produces a decoding
failure together with a partially populated destination (`DocIDs = ["a"]`),
which `ListDocs` hands back to the caller. -/
theorem listDocs_partial_population :
    ((NewClient "t").ListDocs
        (fun _ => Except.ok
          { status := 200
            bodyJson := some (Json.obj
              [("doc_ids", Json.arr [Json.str "a"]), ("cursor", Json.num 5)]) })
        ListPaperDocsArgs.zero).2.isSome = true ∧
    ((NewClient "t").ListDocs
        (fun _ => Except.ok
          { status := 200
            bodyJson := some (Json.obj
              [("doc_ids", Json.arr [Json.str "a"]), ("cursor", Json.num 5)]) })
        ListPaperDocsArgs.zero).1 ≠ ListPaperDocsResponse.zero := by
  exact ⟨by decide, by decide⟩

/-- C3 (amended): for every metadata call that fails before decoding a 200
body — a transport failure or a non-200 response — the destination is the
zero value and a failure is reported; a failed decode of a 200 body may
instead leave the destination partially populated. -/
theorem metadata_failure_before_decode_zero_dest :
    ∀ (c : APIClient) (a : ListPaperDocsArgs) (r : RefPaperDoc) (resp : RpcResponse),
      resp.status ≠ 200 →
      c.ListDocs (fun _ => Except.error ()) a =
        (ListPaperDocsResponse.zero, some CallError.transport) ∧
      c.GetDocFolderInfo (fun _ => Except.error ()) r =
        (FoldersContainingPaperDoc.zero, some CallError.transport) ∧
      (c.ListDocs (fun _ => Except.ok resp) a).1 = ListPaperDocsResponse.zero ∧
      (c.ListDocs (fun _ => Except.ok resp) a).2.isSome = true ∧
      (c.GetDocFolderInfo (fun _ => Except.ok resp) r).1 = FoldersContainingPaperDoc.zero ∧
      (c.GetDocFolderInfo (fun _ => Except.ok resp) r).2.isSome = true := by
  intro c a r resp h
  refine ⟨rfl, rfl, ?_, ?_, ?_, ?_⟩ <;>
    simp only [APIClient.ListDocs, APIClient.GetDocFolderInfo, APIClient.rpc] <;>
    first
      | exact (rpcProcess_non200 resp _ _ h).1
      | exact (rpcProcess_non200 resp _ _ h).2

/-- C3 (witness): the amended statement applied to a concrete client,
arguments and 409 response. -/
theorem metadata_failure_before_decode_zero_dest_witness :
    (409 : Nat) ≠ 200 ∧
    ((NewClient "t").ListDocs (fun _ => Except.error ()) ListPaperDocsArgs.zero =
        (ListPaperDocsResponse.zero, some CallError.transport) ∧
      (NewClient "t").GetDocFolderInfo (fun _ => Except.error ()) { DocID := "d" } =
        (FoldersContainingPaperDoc.zero, some CallError.transport) ∧
      ((NewClient "t").ListDocs
          (fun _ => Except.ok { status := 409, bodyJson := some (Json.obj []) })
          ListPaperDocsArgs.zero).1 = ListPaperDocsResponse.zero ∧
      ((NewClient "t").ListDocs
          (fun _ => Except.ok { status := 409, bodyJson := some (Json.obj []) })
          ListPaperDocsArgs.zero).2.isSome = true ∧
      ((NewClient "t").GetDocFolderInfo
          (fun _ => Except.ok { status := 409, bodyJson := some (Json.obj []) })
          { DocID := "d" }).1 = FoldersContainingPaperDoc.zero ∧
      ((NewClient "t").GetDocFolderInfo
          (fun _ => Except.ok { status := 409, bodyJson := some (Json.obj []) })
          { DocID := "d" }).2.isSome = true) :=
  ⟨by decide,
    metadata_failure_before_decode_zero_dest (NewClient "t") ListPaperDocsArgs.zero
      { DocID := "d" } { status := 409, bodyJson := some (Json.obj []) } (by decide)⟩

/-- C2 (counterexample): the claim says a 200 content response always has
its body read and returned, even when decoding the `Dropbox-API-Result`
header fails; but with a present header whose JSON mis-types `revision`,
`content` returns the decode error with nil content — the body bytes
`b"hello world"` are not returned. -/
theorem downloadDoc_bad_header_drops_body :
    ((NewClient "t").DownloadDoc
        (fun _ => Except.ok
          { status := 200
            headerPresent := true
            apiResult := some (Json.obj [("revision", Json.str "bad")])
            body := strBytes "hello world"
            bodyJson := none })
        { DocID := "d", Format := "markdown" }).2.1 ≠ strBytes "hello world" ∧
    ((NewClient "t").DownloadDoc
        (fun _ => Except.ok
          { status := 200
            headerPresent := true
            apiResult := some (Json.obj [("revision", Json.str "bad")])
            body := strBytes "hello world"
            bodyJson := none })
        { DocID := "d", Format := "markdown" }).2.2 = some CallError.encoding := by
  exact ⟨by decide, by decide⟩

/-- C2 (amended): for every content call whose response has status 200,
the full body bytes are returned as content when the `Dropbox-API-Result`
header is absent or decodes without error; when the header is present and
fails to decode, the call fails and no content is returned. -/
theorem downloadDoc_200_body_returned :
    ∀ (c : APIClient) (p : PaperDocExport) (resp : ContentResponse),
      resp.status = 200 →
      (resp.headerPresent = false ∨
        (∃ j, resp.apiResult = some j ∧
          (decodePaperDocExportResult j PaperDocExportResult.zero).2 = false)) →
      (c.DownloadDoc (fun _ => Except.ok resp) p).2.1 = resp.body ∧
      (c.DownloadDoc (fun _ => Except.ok resp) p).2.2 = none := by
  intro c p resp h200 hmeta
  simp only [APIClient.DownloadDoc, APIClient.content, contentProcess, h200]
  rcases hmeta with habs | ⟨j, hj, hdec⟩
  · simp [habs]
  · rcases hp : resp.headerPresent with _ | _
    · simp
    · simp [hj, hdec]

/-- C2 (witness): the amended statement applied to a concrete 200 response
whose header decodes successfully. -/
theorem downloadDoc_200_body_returned_witness :
    ((200 : Nat) = 200 ∧
      (({ status := 200
          headerPresent := true
          apiResult := some (Json.obj [("owner", Json.str "o")])
          body := strBytes "payload"
          bodyJson := none } : ContentResponse).headerPresent = false ∨
        (∃ j, ({ status := 200
                 headerPresent := true
                 apiResult := some (Json.obj [("owner", Json.str "o")])
                 body := strBytes "payload"
                 bodyJson := none } : ContentResponse).apiResult = some j ∧
          (decodePaperDocExportResult j PaperDocExportResult.zero).2 = false))) ∧
    ((NewClient "t").DownloadDoc
        (fun _ => Except.ok
          { status := 200
            headerPresent := true
            apiResult := some (Json.obj [("owner", Json.str "o")])
            body := strBytes "payload"
            bodyJson := none })
        { DocID := "d", Format := "html" }).2.1 =
      ({ status := 200
         headerPresent := true
         apiResult := some (Json.obj [("owner", Json.str "o")])
         body := strBytes "payload"
         bodyJson := none } : ContentResponse).body ∧
    ((NewClient "t").DownloadDoc
        (fun _ => Except.ok
          { status := 200
            headerPresent := true
            apiResult := some (Json.obj [("owner", Json.str "o")])
            body := strBytes "payload"
            bodyJson := none })
        { DocID := "d", Format := "html" }).2.2 = none :=
  ⟨⟨rfl, Or.inr ⟨Json.obj [("owner", Json.str "o")], rfl, by decide⟩⟩,
    downloadDoc_200_body_returned (NewClient "t") { DocID := "d", Format := "html" }
      { status := 200
        headerPresent := true
        apiResult := some (Json.obj [("owner", Json.str "o")])
        body := strBytes "payload"
        bodyJson := none }
      rfl
      (Or.inr ⟨Json.obj [("owner", Json.str "o")], rfl, by decide⟩)⟩

/-- C6: every call (metadata or content) whose response has a non-200
status and a body that decodes as an `APIError` fails with exactly that
`APIError`: its summary is the body's `error_summary` and its metadata
mapping is the body's `error` mapping. -/
theorem calls_non200_remote_error :
    ∀ (c : APIClient) (a : ListPaperDocsArgs) (r : RefPaperDoc) (p : PaperDocExport)
      (resp : RpcResponse) (cresp : ContentResponse) (j jc : Json) (e ec : APIError),
      resp.status ≠ 200 → resp.bodyJson = some j →
      decodeAPIError j APIError.zero = (e, false) →
      cresp.status ≠ 200 → cresp.bodyJson = some jc →
      decodeAPIError jc APIError.zero = (ec, false) →
      (c.ListDocs (fun _ => Except.ok resp) a).2 = some (CallError.remote e) ∧
      (c.GetDocFolderInfo (fun _ => Except.ok resp) r).2 = some (CallError.remote e) ∧
      (c.DownloadDoc (fun _ => Except.ok cresp) p).2.2 = some (CallError.remote ec) := by
  intro c a r p resp cresp j jc e ec h hb hd hc hcb hcd
  refine ⟨?_, ?_, ?_⟩
  · simp only [APIClient.ListDocs, APIClient.rpc]
    rw [rpcProcess_non200_remote resp _ _ j e h hb hd]
  · simp only [APIClient.GetDocFolderInfo, APIClient.rpc]
    rw [rpcProcess_non200_remote resp _ _ j e h hb hd]
  · simp only [APIClient.DownloadDoc, APIClient.content]
    rw [contentProcess_non200_remote cresp _ _ jc ec hc hcb hcd]

/-- C6 (witness): a mock 409 response with body
`{"error_summary":"conflict","error":{"reason":"x"}}` makes all three
operations fail with a `RemoteError` whose summary is `"conflict"` and
whose metadata mapping is `{"reason":"x"}`. -/
theorem calls_non200_remote_error_witness :
    ((409 : Nat) ≠ 200 ∧
      decodeAPIError
        (Json.obj [("error_summary", Json.str "conflict"),
                   ("error", Json.obj [("reason", Json.str "x")])])
        APIError.zero = ({ Summary := "conflict", Metadata := [("reason", "x")] }, false)) ∧
    ((NewClient "t").ListDocs
        (fun _ => Except.ok
          { status := 409
            bodyJson := some (Json.obj
              [("error_summary", Json.str "conflict"),
               ("error", Json.obj [("reason", Json.str "x")])]) })
        ListPaperDocsArgs.zero).2 =
      some (CallError.remote { Summary := "conflict", Metadata := [("reason", "x")] }) ∧
    ((NewClient "t").GetDocFolderInfo
        (fun _ => Except.ok
          { status := 409
            bodyJson := some (Json.obj
              [("error_summary", Json.str "conflict"),
               ("error", Json.obj [("reason", Json.str "x")])]) })
        { DocID := "d" }).2 =
      some (CallError.remote { Summary := "conflict", Metadata := [("reason", "x")] }) ∧
    ((NewClient "t").DownloadDoc
        (fun _ => Except.ok
          { status := 409
            headerPresent := false
            apiResult := none
            body := []
            bodyJson := some (Json.obj
              [("error_summary", Json.str "conflict"),
               ("error", Json.obj [("reason", Json.str "x")])]) })
        { DocID := "d", Format := "markdown" }).2.2 =
      some (CallError.remote { Summary := "conflict", Metadata := [("reason", "x")] }) :=
  ⟨⟨by decide, by decide⟩,
    calls_non200_remote_error (NewClient "t") ListPaperDocsArgs.zero { DocID := "d" }
      { DocID := "d", Format := "markdown" }
      { status := 409
        bodyJson := some (Json.obj
          [("error_summary", Json.str "conflict"),
           ("error", Json.obj [("reason", Json.str "x")])]) }
      { status := 409
        headerPresent := false
        apiResult := none
        body := []
        bodyJson := some (Json.obj
          [("error_summary", Json.str "conflict"),
           ("error", Json.obj [("reason", Json.str "x")])]) }
      (Json.obj [("error_summary", Json.str "conflict"),
                 ("error", Json.obj [("reason", Json.str "x")])])
      (Json.obj [("error_summary", Json.str "conflict"),
                 ("error", Json.obj [("reason", Json.str "x")])])
      { Summary := "conflict", Metadata := [("reason", "x")] }
      { Summary := "conflict", Metadata := [("reason", "x")] }
      (by decide) rfl (by decide) (by decide) rfl (by decide)⟩

/-- C10 (counterexample): the claim says every non-200 response whose
well-formed JSON object body lacks the `error_summary` and `error` keys
produces the zero `RemoteError`; but the body `{"Error":"x"}` contains
neither key, yet its key `Error` matches the `error` field
case-insensitively and its string value mis-types the `map[string]string`
field, so the call fails with a decoding error instead. -/
theorem listDocs_folded_key_encoding_error :
    ((NewClient "t").ListDocs
        (fun _ => Except.ok
          { status := 409, bodyJson := some (Json.obj [("Error", Json.str "x")]) })
        ListPaperDocsArgs.zero).2 = some CallError.encoding ∧
    ((NewClient "t").ListDocs
        (fun _ => Except.ok
          { status := 409, bodyJson := some (Json.obj [("Error", Json.str "x")]) })
        ListPaperDocsArgs.zero).2 ≠
      some (CallError.remote { Summary := "", Metadata := [] }) := by
  exact ⟨by decide, by decide⟩

/-- Decoding an object none of whose keys matches the `error_summary` or
`error` fields leaves an `APIError` destination unchanged with no new
error: every member is an ignored unknown key. -/
theorem decodeAPIErrorMembers_unmatched :
    ∀ (kvs : List (String × Json)) (dst : APIError) (e : Bool),
      (∀ kv ∈ kvs, jsonKeyMatch kv.1 "error_summary" = false ∧
        jsonKeyMatch kv.1 "error" = false) →
      decodeAPIErrorMembers kvs dst e = (dst, e) := by
  intro kvs
  induction kvs with
  | nil => intro dst e _; rfl
  | cons kv rest ih =>
    intro dst e h
    obtain ⟨k, v⟩ := kv
    obtain ⟨h1, h2⟩ := h (k, v) (List.mem_cons_self (k, v) rest)
    simp only [decodeAPIErrorMembers, h1, h2, Bool.false_eq_true, if_false]
    exact ih dst e (fun kv hm => h kv (List.mem_cons_of_mem _ hm))

/-- C10 (amended): for every call (metadata or content) whose response
has a non-200 status and a well-formed JSON object body none of whose
keys matches the `error_summary` or `error` fields under Go's
exact-or-ASCII-case-insensitive field matching — in particular the empty
object — the operation fails with a `RemoteError` whose summary is the
empty string and whose metadata mapping is empty, rather than with a
decoding failure. -/
theorem calls_non200_unmatched_object_zero_remote :
    ∀ (c : APIClient) (a : ListPaperDocsArgs) (r : RefPaperDoc) (p : PaperDocExport)
      (resp : RpcResponse) (cresp : ContentResponse)
      (kvs kvsc : List (String × Json)),
      (∀ kv ∈ kvs, jsonKeyMatch kv.1 "error_summary" = false ∧
        jsonKeyMatch kv.1 "error" = false) →
      resp.status ≠ 200 → resp.bodyJson = some (Json.obj kvs) →
      (∀ kv ∈ kvsc, jsonKeyMatch kv.1 "error_summary" = false ∧
        jsonKeyMatch kv.1 "error" = false) →
      cresp.status ≠ 200 → cresp.bodyJson = some (Json.obj kvsc) →
      (c.ListDocs (fun _ => Except.ok resp) a).2 =
        some (CallError.remote { Summary := "", Metadata := [] }) ∧
      (c.GetDocFolderInfo (fun _ => Except.ok resp) r).2 =
        some (CallError.remote { Summary := "", Metadata := [] }) ∧
      (c.DownloadDoc (fun _ => Except.ok cresp) p).2.2 =
        some (CallError.remote { Summary := "", Metadata := [] }) := by
  intro c a r p resp cresp kvs kvsc hk h hb hkc hc hcb
  have hd : decodeAPIError (Json.obj kvs) APIError.zero = (APIError.zero, false) := by
    unfold decodeAPIError
    exact decodeAPIErrorMembers_unmatched kvs APIError.zero false hk
  have hdc : decodeAPIError (Json.obj kvsc) APIError.zero = (APIError.zero, false) := by
    unfold decodeAPIError
    exact decodeAPIErrorMembers_unmatched kvsc APIError.zero false hkc
  refine ⟨?_, ?_, ?_⟩
  · simp only [APIClient.ListDocs, APIClient.rpc]
    rw [rpcProcess_non200_remote resp _ _ (Json.obj kvs) APIError.zero h hb hd]
    rfl
  · simp only [APIClient.GetDocFolderInfo, APIClient.rpc]
    rw [rpcProcess_non200_remote resp _ _ (Json.obj kvs) APIError.zero h hb hd]
    rfl
  · simp only [APIClient.DownloadDoc, APIClient.content]
    rw [contentProcess_non200_remote cresp _ _ (Json.obj kvsc) APIError.zero hc hcb hdc]
    rfl

/-- C10 (witness): the amended statement applied to concrete 409
responses — a metadata body `{"detail":"y"}` (whose sole key matches
neither error field) and a content body `{}`. -/
theorem calls_non200_unmatched_object_zero_remote_witness :
    ((∀ kv ∈ [("detail", Json.str "y")], jsonKeyMatch kv.1 "error_summary" = false ∧
        jsonKeyMatch kv.1 "error" = false) ∧
      (∀ kv ∈ ([] : List (String × Json)), jsonKeyMatch kv.1 "error_summary" = false ∧
        jsonKeyMatch kv.1 "error" = false) ∧
      (409 : Nat) ≠ 200) ∧
    ((NewClient "t").ListDocs
        (fun _ => Except.ok
          { status := 409, bodyJson := some (Json.obj [("detail", Json.str "y")]) })
        ListPaperDocsArgs.zero).2 =
      some (CallError.remote { Summary := "", Metadata := [] }) ∧
    ((NewClient "t").GetDocFolderInfo
        (fun _ => Except.ok
          { status := 409, bodyJson := some (Json.obj [("detail", Json.str "y")]) })
        { DocID := "d" }).2 =
      some (CallError.remote { Summary := "", Metadata := [] }) ∧
    ((NewClient "t").DownloadDoc
        (fun _ => Except.ok
          { status := 409
            headerPresent := false
            apiResult := none
            body := []
            bodyJson := some (Json.obj []) })
        { DocID := "d", Format := "markdown" }).2.2 =
      some (CallError.remote { Summary := "", Metadata := [] }) :=
  ⟨⟨by decide, by decide, by decide⟩,
    calls_non200_unmatched_object_zero_remote (NewClient "t") ListPaperDocsArgs.zero
      { DocID := "d" } { DocID := "d", Format := "markdown" }
      { status := 409, bodyJson := some (Json.obj [("detail", Json.str "y")]) }
      { status := 409
        headerPresent := false
        apiResult := none
        body := []
        bodyJson := some (Json.obj []) }
      [("detail", Json.str "y")] []
      (by decide) (by decide) rfl (by decide) (by decide) rfl⟩

/-- Key matching is reflexive (a key always selects the field of the same
name). -/
theorem jsonKeyMatch_refl (k : String) : jsonKeyMatch k k = true := by
  simp [jsonKeyMatch]

/-- The keys of `ListPaperDocsArgs` are pairwise distinct for Go's field
matching (exact and case-insensitive), in the order the decoder checks
them. -/
theorem listPaperDocsArgs_keys_distinct :
    jsonKeyMatch "sort_by" "filter_by" = false ∧
    jsonKeyMatch "sort_order" "filter_by" = false ∧
    jsonKeyMatch "sort_order" "sort_by" = false ∧
    jsonKeyMatch "limit" "filter_by" = false ∧
    jsonKeyMatch "limit" "sort_by" = false ∧
    jsonKeyMatch "limit" "sort_order" = false := by
  decide

/-- C9: serializing any `ListPaperDocsArgs` value with `json.Marshal` and
decoding the result back into a zero `ListPaperDocsArgs` destination
reproduces the original value field for field, with no decoding error —
omitted empty fields decode to their zero values. -/
theorem listPaperDocsArgs_roundtrip :
    ∀ a : ListPaperDocsArgs,
      decodeListPaperDocsArgs (marshalListPaperDocsArgs a) ListPaperDocsArgs.zero =
        (a, false) := by
  intro a
  obtain ⟨f, s, o, l⟩ := a
  by_cases hf : f = "" <;> by_cases hs : s = "" <;> by_cases ho : o = "" <;>
      by_cases hl : l = 0 <;>
    simp [marshalListPaperDocsArgs, decodeListPaperDocsArgs,
      decodeListPaperDocsArgsMembers, decodeGoString, decodeGoInt,
      ListPaperDocsArgs.zero, hf, hs, ho, hl, jsonKeyMatch_refl,
      listPaperDocsArgs_keys_distinct.1, listPaperDocsArgs_keys_distinct.2.1,
      listPaperDocsArgs_keys_distinct.2.2.1, listPaperDocsArgs_keys_distinct.2.2.2.1,
      listPaperDocsArgs_keys_distinct.2.2.2.2.1,
      listPaperDocsArgs_keys_distinct.2.2.2.2.2]
